import Mathlib

/-!
Shallow embedding of the proc-macro crate in `src/lib.rs` (rust-state-shift).

The crate defines four attribute macros — `require`, `switch_to`, `states`,
`type_state` — and the helper `is_single_letter`.  Each macro consumes
already-parsed syntax (a comma-separated identifier list plus an `ItemFn`,
`ItemImpl` or `ItemStruct`) and emits a token stream by splicing the parsed
pieces into a fixed `quote!` template.  We embed the macros as total Lean
functions from the parsed inputs to a record describing the emitted tokens;
the only post-parse failure path in the whole crate — the `panic!` in
`switch_to` when the method has no declared return type — is modelled with
`Except`.

Conventions of the embedding:
* an identifier is the string `Ident::to_string()` yields;
* Rust `String::len` counts UTF-8 bytes, so the embedding of
  `is_single_letter` compares `String.utf8ByteSize` with 1;
* token sequences that a macro copies verbatim without inspecting them
  (parameter lists, bodies, attribute arguments, impl-block items) are kept
  as opaque token lists;
* a return type is a token tree: `switch_to` only ever appends one `<...>`
  argument list to whatever return-type tokens it received, so the type of
  embedded return types is "base tokens, possibly with applied argument
  lists".
-/

/-- An identifier, modelled as the string produced by `Ident::to_string()`. -/
abbrev Ident := String

/-- Rust `String::len` counts UTF-8 bytes (not characters); this is the
length the crate's helper compares with 1. -/
def rustLen (s : String) : Nat :=
  s.utf8ByteSize

/-- Embedding of `is_single_letter` (src/lib.rs lines 71-74): convert the
identifier to a string and test `len() == 1`, i.e. UTF-8 byte length 1. -/
def is_single_letter (ident : Ident) : Bool :=
  rustLen ident == 1

/-- An attribute attached to a method: its path (as returned by
`attr.path()`, a sequence of segments) and its argument tokens.  The
`require` macro tests `attr.path().is_ident("switch_to")`, i.e. whether the
path is the single segment `switch_to`. -/
structure Attr where
  path : List String
  args : List String
deriving DecidableEq

/-- A return-type token tree.  `Ty.ident s` is a bare type name; `Ty.app t
targs` is the tokens of `t` followed by the angle-bracketed argument list
`<targs>`.  `switch_to` builds exactly one such application around the
original return-type tokens, whatever they were. -/
inductive Ty where
  | ident (name : String) : Ty
  | app (head : Ty) (targs : List Ident) : Ty
deriving DecidableEq

/-- A parsed method (`syn::ItemFn`) as the macros consume it: its
attributes, name, parameter-list tokens, declared return type
(`ReturnType::Default`, i.e. no `-> T`, is `none`), and body tokens. -/
structure ItemFn where
  attrs : List Attr
  name : String
  inputs : List String
  output : Option Ty
  body : List String
deriving DecidableEq

/-- The impl block emitted by `require` (src/lib.rs lines 56-65):

`impl<generics> PlayerBuilder<typeArgs> where whereClauses { attrs fn name(inputs) output { body } }`

`whereClauses` lists the identifiers that receive a `: TypeStateProtector`
bound (the source emits no `where` keyword when the list is empty, which
coincides with the empty list here). -/
structure ImplBlock where
  generics : List Ident
  structName : String
  typeArgs : List Ident
  whereClauses : List Ident
  methodAttrs : List Attr
  methodName : String
  methodInputs : List String
  methodOutput : Option Ty
  methodBody : List String
deriving DecidableEq

/-- Embedding of the `require` attribute macro (src/lib.rs lines 11-68).
Inputs are the parsed attribute arguments (a comma-separated identifier
list) and the parsed method.  The macro keeps the single-letter arguments
as impl generics and where-clause subjects, passes every argument as a type
argument of the hardcoded struct name `PlayerBuilder`, and copies the
method (name, inputs, output, body) together with exactly its `switch_to`
attributes into the block. -/
def require (args : List Ident) (input_fn : ItemFn) : ImplBlock :=
  { generics := args.filter (fun i => is_single_letter i)
  , structName := "PlayerBuilder"
  , typeArgs := args
  , whereClauses := args.filter (fun i => is_single_letter i)
  , methodAttrs := input_fn.attrs.filter (fun a => a.path == ["switch_to"])
  , methodName := input_fn.name
  , methodInputs := input_fn.inputs
  , methodOutput := input_fn.output
  , methodBody := input_fn.body }

/-- The method emitted by `switch_to` (src/lib.rs lines 103-107):
`fn name(inputs) -> output { body }`. -/
structure MethodDecl where
  name : String
  inputs : List String
  output : Ty
  body : List String
deriving DecidableEq

/-- Embedding of the `switch_to` attribute macro (src/lib.rs lines 76-110).
When the method declares a return type `ty`, the macro emits the method
with return type `ty<args>` (the original tokens followed by the argument
list); when the method declares no return type (`ReturnType::Default`) the
macro panics with the message `Expected a return type.`.  No other check is
performed on the return type. -/
def switch_to (args : List Ident) (input_fn : ItemFn) : Except String MethodDecl :=
  match input_fn.output with
  | some ty =>
      Except.ok
        { name := input_fn.name
        , inputs := input_fn.inputs
        , output := Ty.app ty args
        , body := input_fn.body }
  | none => Except.error "Expected a return type."

/-- The expansion emitted by `states` (src/lib.rs lines 156-171): one
`struct M;` marker, one `impl sealed::Sealed for M {}` and one
`impl TypeStateProtector for M {}` per listed state, in list order, plus
the items of the annotated impl block copied verbatim.  Each list records
the marker name the corresponding item is generated for. -/
structure StatesOutput where
  markers : List Ident
  sealedImpls : List Ident
  traitImpls : List Ident
  methods : List String
deriving DecidableEq

/-- Embedding of the `states` attribute macro (src/lib.rs lines 123-174).
The attribute arguments are the parsed state list; `items` are the items of
the annotated impl block.  The macro loops over the states in order,
generating a marker struct, a `sealed::Sealed` impl and a
`TypeStateProtector` impl for each occurrence, and re-emits the impl-block
items; it performs no check on the list. -/
def states (args : List Ident) (items : List String) : StatesOutput :=
  { markers := args
  , sealedImpls := args
  , traitImpls := args
  , methods := items }

/-- A parsed struct (`syn::ItemStruct`) with named fields, as `type_state`
consumes it after its panics on unnamed/unit fields: name plus the list of
(field name, field type tokens). -/
structure ItemStruct where
  name : String
  fields : List (String × String)
deriving DecidableEq

/-- The struct declaration emitted by `type_state` (src/lib.rs lines
221-229): `struct name<p1 = d, ..., pN = d> where p1: TypeStateProtector,
... { fields  _state: (PhantomData<p1>, ..., PhantomData<pN>) }`.
`generics` pairs each parameter name with its default; `whereParams` lists
the parameters bounded by `TypeStateProtector`; `stateField` lists, in
order, the parameter each `PhantomData<_>` component of the injected
`_state` field is applied to. -/
structure StructDecl where
  name : String
  generics : List (String × Ident)
  whereParams : List String
  fields : List (String × String)
  stateField : List String
deriving DecidableEq

/-- The generic-parameter names `State1 ... StateN` generated by
`type_state` (src/lib.rs lines 204-206). -/
def state_idents (state_slots : Nat) : List String :=
  (List.range state_slots).map (fun i => "State" ++ toString (i + 1))

/-- Embedding of the `type_state` attribute macro (src/lib.rs lines
176-232), taking the already-extracted `state_slots` literal and
`default_state` identifier (the raw-token extraction at fixed argument
positions is the out-of-scope lexical helper) and the parsed struct.  It
generates `state_slots` parameters `State1..StateN`, each defaulting to
`default_state` and each bounded by `TypeStateProtector`, keeps the
original fields and appends the `_state` field of `PhantomData` components,
one per parameter. -/
def type_state (state_slots : Nat) (default_state : Ident) (input_struct : ItemStruct) : StructDecl :=
  { name := input_struct.name
  , generics := (state_idents state_slots).map (fun s => (s, default_state))
  , whereParams := state_idents state_slots
  , fields := input_struct.fields
  , stateField := state_idents state_slots }

/-- Concrete method used to exercise the macros: `fn status(&self) -> u8`. -/
def exStatusFn : ItemFn :=
  { attrs := []
  , name := "status"
  , inputs := ["&self"]
  , output := some (Ty.ident "u8")
  , body := ["self.level"] }

/-- Concrete transition method: `fn start(self) -> PlayerBuilder` with a
bare struct return type. -/
def exStartFn : ItemFn :=
  { attrs := []
  , name := "start"
  , inputs := ["self"]
  , output := some (Ty.ident "PlayerBuilder")
  , body := ["PlayerBuilder", "..", "self"] }

/-- Concrete method whose return type is already parameterized:
`fn finish(self) -> PlayerBuilder<Idle>`. -/
def exParamRetFn : ItemFn :=
  { attrs := []
  , name := "finish"
  , inputs := ["self"]
  , output := some (Ty.app (Ty.ident "PlayerBuilder") ["Idle"])
  , body := ["PlayerBuilder", "..", "self"] }

/-- Concrete method with no declared return type: `fn reset(self)`. -/
def exNoRetFn : ItemFn :=
  { attrs := []
  , name := "reset"
  , inputs := ["self"]
  , output := none
  , body := [] }

/-- Concrete method carrying one `switch_to` attribute, one doc comment and
one other attribute, to exercise attribute filtering. -/
def exAttrFn : ItemFn :=
  { attrs :=
      [ { path := ["doc"], args := ["a doc comment"] }
      , { path := ["switch_to"], args := ["Running"] }
      , { path := ["inline"], args := [] } ]
  , name := "start"
  , inputs := ["self"]
  , output := some (Ty.ident "PlayerBuilder")
  , body := ["PlayerBuilder", "..", "self"] }

lemma map_const_replicate {α β : Type} (l : List α) (b : β) :
    l.map (fun _ => b) = List.replicate l.length b := by
  induction l with
  | nil => rfl
  | cons a l ih => simp [ih, List.replicate_succ]

/-- C1: the claim says the `require` macro emits an implementation block
scoped to the struct named by its struct-name input, for any struct name
supplied.  The macro has no struct-name input at all: the emitted block is
always `impl ... PlayerBuilder<...>` (src/lib.rs line 57).  For a method
belonging to any struct other than `PlayerBuilder` — e.g. the spec's own
end-to-end example struct `Machine` — the emitted block does not target
that struct. -/
theorem require_structName_cex :
    (require ["S"] exStatusFn).structName = "PlayerBuilder"
    ∧ (require ["S"] exStatusFn).structName ≠ "Machine" := by
  constructor
  · rfl
  · decide

/-- C1 (amended): for every argument tuple and every method, the
implementation block emitted by `require` targets the fixed struct name
`PlayerBuilder`; the target struct is hardcoded, not taken from an input. -/
theorem require_structName_fixed :
    ∀ (args : List Ident) (f : ItemFn), (require args f).structName = "PlayerBuilder" :=
  fun _ _ => rfl

/-- C2: the implementation block emitted by `require` is parameterized by
exactly the single-letter elements of the argument tuple in tuple order
(these are also exactly the identifiers bounded by `TypeStateProtector` in
the where clause), every element — concrete ones included — is passed
directly as a type argument, and the method's name, parameter list, return
type and body are copied unchanged; in particular a concrete
(non-single-letter) element is never made a generic parameter but does
appear among the type arguments. -/
theorem require_impl_block_shape :
    ∀ (args : List Ident) (f : ItemFn),
    (require args f).generics = args.filter (fun i => is_single_letter i)
    ∧ (require args f).whereClauses = args.filter (fun i => is_single_letter i)
    ∧ (require args f).typeArgs = args
    ∧ (require args f).methodName = f.name
    ∧ (require args f).methodInputs = f.inputs
    ∧ (require args f).methodOutput = f.output
    ∧ (require args f).methodBody = f.body
    ∧ ∀ i, i ∈ args → is_single_letter i = false →
        ¬ i ∈ (require args f).generics ∧ i ∈ (require args f).typeArgs := by
  intro args f
  refine ⟨rfl, rfl, rfl, rfl, rfl, rfl, rfl, ?_⟩
  intro i hi hns
  refine ⟨?_, hi⟩
  intro hmem
  have hsl := (List.mem_filter.mp hmem).2
  rw [hns] at hsl
  exact Bool.false_ne_true hsl

/-- C2 witness: on the tuple `(A, Idle)`, the concrete element `Idle` is
not a generic parameter of the emitted block but is a type argument. -/
theorem require_impl_block_shape_witness :
    ¬ "Idle" ∈ (require ["A", "Idle"] exStatusFn).generics
    ∧ "Idle" ∈ (require ["A", "Idle"] exStatusFn).typeArgs :=
  (require_impl_block_shape ["A", "Idle"] exStatusFn).2.2.2.2.2.2.2 "Idle" (by decide) (by decide)

/-- C3: the claim says an identifier is classified as a placeholder if and
only if it is exactly one character long, depending only on character
length.  The source compares Rust `String::len()`, the UTF-8 byte count,
with 1: the one-character identifier `α` occupies two bytes and is
classified as concrete, refuting the claim. -/
theorem is_single_letter_char_cex :
    ("α" : Ident).length = 1 ∧ is_single_letter "α" = false := by
  decide

/-- C3 (amended): an identifier is classified as a placeholder if and only
if its UTF-8 byte length (Rust `String::len()`) is exactly 1 — i.e. it is
a single ASCII character — and the classification depends only on that
byte length, never on position or surrounding context. -/
theorem is_single_letter_byte_length :
    ∀ s t : Ident, rustLen s = rustLen t →
    (is_single_letter s = is_single_letter t) ∧ (is_single_letter s = true ↔ rustLen s = 1) := by
  intro s t h
  constructor
  · simp [is_single_letter, h]
  · simp [is_single_letter]

/-- C3 witness: the distinct identifiers `a` and `b` have equal byte
length, hence equal classification. -/
theorem is_single_letter_byte_length_witness :
    is_single_letter "a" = is_single_letter "b" :=
  (is_single_letter_byte_length "a" "b" (by decide)).1

/-- C4: for a method whose declared return type is the bare struct name,
`switch_to` emits the method with return type the struct type applied to
exactly the target tuple's elements, positionally in tuple order; and any
single-letter element of the target tuple that also occurs in the method's
required tuple names exactly a generic parameter the `require` macro
introduces for that method, so the identifier in the rewritten return type
is identical to the binder's generic parameter. -/
theorem switch_to_positional :
    ∀ (target : List Ident) (f : ItemFn) (s : String),
    f.output = some (Ty.ident s) →
    switch_to target f
      = Except.ok
          { name := f.name, inputs := f.inputs
          , output := Ty.app (Ty.ident s) target, body := f.body }
    ∧ ∀ (required : List Ident) (g : ItemFn) (t : Ident),
        t ∈ target → is_single_letter t = true → t ∈ required →
        t ∈ (require required g).generics := by
  intro target f s h
  constructor
  · simp [switch_to, h]
  · intro required g t _ hs hr
    simp only [require]
    exact List.mem_filter.mpr ⟨hr, hs⟩

/-- C4 witness: `fn start(self) -> PlayerBuilder` annotated with target
tuple `(Running)` is rewritten to return `PlayerBuilder<Running>`. -/
theorem switch_to_positional_witness :
    switch_to ["Running"] exStartFn
      = Except.ok
          { name := "start", inputs := ["self"]
          , output := Ty.app (Ty.ident "PlayerBuilder") ["Running"]
          , body := ["PlayerBuilder", "..", "self"] } :=
  (switch_to_positional ["Running"] exStartFn "PlayerBuilder" rfl).1

/-- C5: the struct declaration emitted by `type_state` has exactly
`state_slots` generic parameters (`State1 ... StateN`), each defaulting to
the default state, each bounded by `TypeStateProtector` in the where
clause, and carries the original fields plus the injected `_state` field
whose type is the tuple of `PhantomData` applied to each of the parameters
in order; the generic arity equals the declared slot count. -/
theorem type_state_struct_shape :
    ∀ (n : Nat) (d : Ident) (st : ItemStruct),
    (type_state n d st).generics.length = n
    ∧ (type_state n d st).generics.map Prod.fst = state_idents n
    ∧ (type_state n d st).generics.map Prod.snd = List.replicate n d
    ∧ (type_state n d st).whereParams = (type_state n d st).generics.map Prod.fst
    ∧ (type_state n d st).stateField = (type_state n d st).generics.map Prod.fst
    ∧ (type_state n d st).fields = st.fields
    ∧ (type_state n d st).name = st.name := by
  intro n d st
  have hlen : (state_idents n).length = n := by simp [state_idents]
  have hfst : ((state_idents n).map (fun s => (s, d))).map Prod.fst = state_idents n := by
    rw [List.map_map]
    have hc : (Prod.fst ∘ fun s : String => (s, d)) = fun s => s := rfl
    rw [hc, List.map_id']
  have hsnd : ((state_idents n).map (fun s => (s, d))).map Prod.snd = List.replicate n d := by
    rw [List.map_map]
    have : (Prod.snd ∘ fun s => (s, d)) = fun _ : String => d := rfl
    rw [this, map_const_replicate, hlen]
  refine ⟨?_, ?_, ?_, ?_, ?_, rfl, rfl⟩
  · simp [type_state, hlen]
  · exact hfst
  · exact hsnd
  · show state_idents n = ((state_idents n).map (fun s => (s, d))).map Prod.fst
    rw [hfst]
  · show state_idents n = ((state_idents n).map (fun s => (s, d))).map Prod.fst
    rw [hfst]

/-- C6: the claim says the `require` macro rejects a required-state tuple
whose length differs from the struct's slot count.  The macro never learns
the slot count and has no length check: against the one fixed struct it
targets, it accepts and emits implementation blocks for tuples of length 1
and of length 2 alike, passing every element through — so whichever single
slot count the struct declares, at least one of these mismatched tuples
was emitted rather than rejected (and neither was truncated or padded). -/
theorem require_no_arity_check_cex :
    (require ["Idle", "Running"] exStatusFn).typeArgs = ["Idle", "Running"]
    ∧ (require ["Idle"] exStatusFn).typeArgs = ["Idle"] := by
  constructor
  · rfl
  · rfl

/-- C6 (amended): the `require` macro performs no tuple-length validation:
for a tuple of any length it emits an implementation block whose
type-argument list is exactly the supplied tuple — never truncated or
padded — and a length mismatch with the struct's slot count is caught only
by the host compiler when it type-checks the generated block. -/
theorem require_emits_all_args :
    ∀ (args : List Ident) (f : ItemFn),
    (require args f).typeArgs = args ∧ (require args f).typeArgs.length = args.length :=
  fun _ _ => ⟨rfl, rfl⟩

/-- C7: the claim says a concrete tuple element naming a state outside the
governing StateSet makes the `require` macro abort instead of emitting a
block.  With the StateSet `(Idle, Running, Done)` — whose generated
markers are exactly those three names — the concrete identifier `Fake` is
not a member, yet `require` emits an implementation block carrying `Fake`
as a type argument. -/
theorem require_no_stateset_check_cex :
    is_single_letter "Fake" = false
    ∧ ¬ "Fake" ∈ (states ["Idle", "Running", "Done"] []).markers
    ∧ (require ["Fake"] exStatusFn).typeArgs = ["Fake"] := by
  refine ⟨by decide, by decide, rfl⟩

/-- C7 (amended): the `require` macro performs no membership validation
against the StateSet: every supplied tuple element, known state name or
not, appears among the type arguments of the emitted block, and an unknown
name is caught only by the host compiler when the generated block
references a nonexistent type. -/
theorem require_passes_unknown_states :
    ∀ (args : List Ident) (f : ItemFn) (s : Ident), s ∈ args → s ∈ (require args f).typeArgs :=
  fun _ _ _ h => h

/-- C7 (amended) witness: the unknown name `Bogus` is emitted as a type
argument. -/
theorem require_passes_unknown_states_witness :
    "Bogus" ∈ (require ["Bogus"] exStatusFn).typeArgs :=
  require_passes_unknown_states ["Bogus"] exStatusFn "Bogus" (by decide)

/-- C8: the claim says `switch_to` aborts with the usage error
`switch_to requires a bare struct return type` whenever the declared
return type is anything but the bare struct type.  The source only panics
when the return type is absent, and with the different message
`Expected a return type.`; a present but already-parameterized return type
such as `PlayerBuilder<Idle>` is accepted and blindly suffixed with the
target tuple. -/
theorem switch_to_no_bare_check_cex :
    switch_to ["Running"] exParamRetFn
      = Except.ok
          { name := "finish", inputs := ["self"]
          , output := Ty.app (Ty.app (Ty.ident "PlayerBuilder") ["Idle"]) ["Running"]
          , body := ["PlayerBuilder", "..", "self"] }
    ∧ switch_to ["Running"] exNoRetFn
        ≠ Except.error "switch_to requires a bare struct return type" := by
  constructor
  · rfl
  · intro h
    rw [show switch_to ["Running"] exNoRetFn = Except.error "Expected a return type." from rfl] at h
    have := Except.error.inj h
    exact absurd this (by decide)

/-- C8 (amended): `switch_to` aborts exactly when the method declares no
return type, with the message `Expected a return type.`; any present
return type — bare struct or not — is accepted, and the method is emitted
with the target tuple appended to the original return-type tokens as a
type-argument list. -/
theorem switch_to_error_conditions :
    ∀ (args : List Ident) (f : ItemFn),
    (f.output = none → switch_to args f = Except.error "Expected a return type.")
    ∧ ∀ ty, f.output = some ty →
        switch_to args f
          = Except.ok
              { name := f.name, inputs := f.inputs
              , output := Ty.app ty args, body := f.body } := by
  intro args f
  constructor
  · intro h
    simp [switch_to, h]
  · intro ty h
    simp [switch_to, h]

/-- C8 (amended) witness: a method with no declared return type makes
`switch_to` abort with `Expected a return type.`. -/
theorem switch_to_error_conditions_witness :
    switch_to ["Done"] exNoRetFn = Except.error "Expected a return type." :=
  (switch_to_error_conditions ["Done"] exNoRetFn).1 rfl

/-- C9: the claim says the `states` macro detects a duplicated state name
and aborts with `duplicate state name` instead of emitting marker types.
The source has no duplicate check: for the duplicated list
`(Idle, Idle)` it emits two marker structs (and matching impls) rather
than aborting. -/
theorem states_duplicate_cex :
    (states ["Idle", "Idle"] []).markers = ["Idle", "Idle"]
    ∧ (states ["Idle", "Idle"] []).markers.length = 2 := by
  constructor
  · rfl
  · rfl

/-- C9 (amended): the `states` macro performs no duplicate detection: it
emits one marker struct, one `sealed::Sealed` impl and one
`TypeStateProtector` impl per list element, duplicates included, and
copies the impl-block items verbatim; duplicated names yield duplicate
definitions that only the host compiler rejects. -/
theorem states_emits_per_occurrence :
    ∀ (sts : List Ident) (items : List String),
    (states sts items).markers = sts
    ∧ (states sts items).sealedImpls = sts
    ∧ (states sts items).traitImpls = sts
    ∧ (states sts items).methods = items :=
  fun _ _ => ⟨rfl, rfl, rfl, rfl⟩

/-- C10: an attribute of the original method is carried onto the method in
the emitted implementation block exactly when its path is the single
segment `switch_to`; every other attribute — doc comments included — is
dropped. -/
theorem require_keeps_only_switch_to_attrs :
    ∀ (args : List Ident) (f : ItemFn) (a : Attr),
    a ∈ (require args f).methodAttrs ↔ a ∈ f.attrs ∧ a.path = ["switch_to"] := by
  intro args f a
  simp [require, List.mem_filter]

/-- C10 witness: of the three attributes on `exAttrFn`, precisely the
`switch_to` one is carried over. -/
theorem require_keeps_only_switch_to_attrs_witness :
    ({ path := ["switch_to"], args := ["Running"] } : Attr)
      ∈ (require ["A"] exAttrFn).methodAttrs :=
  (require_keeps_only_switch_to_attrs ["A"] exAttrFn
    { path := ["switch_to"], args := ["Running"] }).mpr ⟨by decide, rfl⟩
